import Mathlib

/-!
Verification of the octant overview module (internal/overview/overview.go)
and the kubeconfig loader (internal/event/context.go + internal/kubeconfig),
as a shallow embedding in Lean 4.

Pure control flow of the Go functions is translated directly. Side effects
on the path registry and on the port-forward session table are modelled as
explicit state passing; calls into collaborators that execute concurrently
(the CRD watcher goroutine, the port-forward service creation) are recorded
in explicit action traces so that ordering and call-count properties can be
stated.
-/

namespace Octant

/-! ## Data model: watched objects and registry operations -/

/-- An `unstructured.Unstructured` cluster object, reduced to the only field
the overview handlers read from it (`GetName`). -/
structure Unstructured where
  name : String
deriving DecidableEq, Repr

/-- A mutation performed on the path registry on behalf of a dynamically
defined kind, keyed by the kind's name. -/
inductive RegistryOp where
  | addForName : String → RegistryOp
  | removeForName : String → RegistryOp
deriving DecidableEq, Repr

/-- Function `crdAddFunc` from overview.go (NewClusterOverview): the Added handler.
A nil object returns immediately; otherwise `addCRD(ctx, object.GetName(), pm, csd)`
is invoked once. The returned list is the trace of registry mutations the
handler performs. -/
def crdAddFunc (object : Option Unstructured) : List RegistryOp :=
  match object with
  | none => []
  | some o => [RegistryOp.addForName o.name]

/-- Function `crdDeleteFunc` from overview.go (NewClusterOverview): the Deleted handler.
A nil object returns immediately; otherwise `deleteCRD(ctx, object.GetName(), pm, csd)`
is invoked once. -/
def crdDeleteFunc (object : Option Unstructured) : List RegistryOp :=
  match object with
  | none => []
  | some o => [RegistryOp.removeForName o.name]

/-! ## Path registry state

The `pathMatcher` implementation is not part of the excerpted sources; it is
modelled from the spec. -/

/-- Modelled from the spec: the dynamic part of the Path Registry, as the
ordered list of dynamically-registered kind names (insertion order).
Missing from the sources: `pathMatcher` and `addCRD`. Spec §3: "never
duplicated — adding for a name already present is a no-op or idempotent
replace, never a duplicate entry". -/
def Registry.addForName (reg : List String) (nm : String) : List String :=
  if nm ∈ reg then reg else reg ++ [nm]

/-- Modelled from the spec: removal of every registration added for a name.
Missing from the sources: `pathMatcher` and `deleteCRD`. Spec §4.2: "on
Deleted(object), call remove-for-name(name)"; "A Deleted event for a name
not currently registered is a safe no-op". -/
def Registry.removeForName (reg : List String) (nm : String) : List String :=
  reg.filter (fun n => n ≠ nm)

/-- Apply one registry mutation to the registry state. -/
def Registry.applyOp (reg : List String) : RegistryOp → List String
  | RegistryOp.addForName nm => Registry.addForName reg nm
  | RegistryOp.removeForName nm => Registry.removeForName reg nm

/-! ## Kind Watcher events -/

/-- A watch event for a dynamically-defined kind, as delivered to the
handlers installed by `NewClusterOverview` (Added and Deleted are the two
handlers wired into `watchCRDs`). -/
inductive CRDEvent where
  | added : Unstructured → CRDEvent
  | deleted : Unstructured → CRDEvent
deriving DecidableEq, Repr

/-- The kind name an event is about. -/
def CRDEvent.name : CRDEvent → String
  | CRDEvent.added o => o.name
  | CRDEvent.deleted o => o.name

/-- Whether the event is an Added event. -/
def CRDEvent.isAdded : CRDEvent → Bool
  | CRDEvent.added _ => true
  | CRDEvent.deleted _ => false

/-- Dispatch one event to the handler `NewClusterOverview` installed for it,
yielding the trace of registry mutations that handler performs. -/
def handleEvent : CRDEvent → List RegistryOp
  | CRDEvent.added o => crdAddFunc (some o)
  | CRDEvent.deleted o => crdDeleteFunc (some o)

/-- Process one event: run its handler and apply the resulting registry
mutations in order. -/
def processEvent (reg : List String) (e : CRDEvent) : List String :=
  (handleEvent e).foldl Registry.applyOp reg

/-- Process a finite sequence of events in delivery order. -/
def processEvents (reg : List String) (evts : List CRDEvent) : List String :=
  evts.foldl processEvent reg

/-! ## Lemmas about single-name event processing -/

lemma count_addForName_le_one (reg : List String) (nm : String)
    (h : reg.count nm ≤ 1) : (Registry.addForName reg nm).count nm ≤ 1 := by
  unfold Registry.addForName
  by_cases hmem : nm ∈ reg
  · simpa [hmem] using h
  · simp [hmem, List.count_append]
    simpa using List.count_eq_zero_of_not_mem hmem

lemma mem_addForName (reg : List String) (nm : String) :
    nm ∈ Registry.addForName reg nm := by
  unfold Registry.addForName
  by_cases hmem : nm ∈ reg
  · simp [hmem]
  · simp [hmem]

lemma not_mem_removeForName (reg : List String) (nm : String) :
    nm ∉ Registry.removeForName reg nm := by
  unfold Registry.removeForName
  intro h
  have := List.of_mem_filter h
  simp at this

lemma count_removeForName (reg : List String) (nm : String) :
    (Registry.removeForName reg nm).count nm = 0 := by
  exact List.count_eq_zero_of_not_mem (not_mem_removeForName reg nm)

/-- After processing a single event about name `nm`, membership of `nm` in
the registry equals whether the event was Added, and no duplicate exists. -/
lemma processEvent_mem (reg : List String) (e : CRDEvent) (hc : reg.count nm ≤ 1)
    (hn : e.name = nm) :
    (nm ∈ processEvent reg e ↔ e.isAdded = true) ∧
      (processEvent reg e).count nm ≤ 1 := by
  cases e with
  | added o =>
    simp only [CRDEvent.name] at hn
    subst hn
    constructor
    · simp [processEvent, handleEvent, crdAddFunc, Registry.applyOp, CRDEvent.isAdded,
        mem_addForName]
    · simpa [processEvent, handleEvent, crdAddFunc, Registry.applyOp] using
        count_addForName_le_one reg o.name hc
  | deleted o =>
    simp only [CRDEvent.name] at hn
    subst hn
    constructor
    · simp [processEvent, handleEvent, crdDeleteFunc, Registry.applyOp, CRDEvent.isAdded,
        not_mem_removeForName]
    · simp [processEvent, handleEvent, crdDeleteFunc, Registry.applyOp]
      exact Nat.le_of_eq (count_removeForName reg o.name) |>.trans (Nat.zero_le 1) |>.trans
        (Nat.le_refl 1)

lemma processEvents_append (reg : List String) (evts : List CRDEvent) (e : CRDEvent) :
    processEvents reg (evts ++ [e]) = processEvent (processEvents reg evts) e := by
  simp [processEvents, List.foldl_append]

lemma processEvents_count (reg : List String) (evts : List CRDEvent) (nm : String)
    (hall : ∀ e ∈ evts, CRDEvent.name e = nm) (hc : reg.count nm ≤ 1) :
    (processEvents reg evts).count nm ≤ 1 := by
  induction evts using List.reverseRecOn with
  | nil => simpa [processEvents] using hc
  | append_singleton evts e ih =>
    rw [processEvents_append]
    have hmem : ∀ f ∈ evts, CRDEvent.name f = nm := by
      intro f hf; exact hall f (List.mem_append_left _ hf)
    have he : CRDEvent.name e = nm := hall e (by simp)
    exact (processEvent_mem (processEvents reg evts) e (ih hmem) he).2

/-! ## ClusterOverview constructor and Content

Collaborator values that `NewClusterOverview` and `Content` only pass around
(cache, logger, plugin manager, port-forward service handle, selectors,
content responses) are modelled as opaque carriers of a string tag, so that
pass-through statements are not vacuous. -/

/-- A path filter produced by a describer (`describer.PathFilters()`). -/
structure PathFilter where
  path : String
deriving DecidableEq, Repr

/-- An opaque cache handle (`cache.Cache`). -/
structure Cache where
  tag : String
deriving DecidableEq, Repr

/-- An opaque logger handle (`log.Logger`). -/
structure Logger where
  tag : String
deriving DecidableEq, Repr

/-- An opaque plugin manager handle (`plugin.Manager`). -/
structure PluginManager where
  tag : String
deriving DecidableEq, Repr

/-- An opaque port-forward service handle (`portforward.PortForwarder`). -/
structure PortForwarder where
  tag : String
deriving DecidableEq, Repr

/-- An opaque label selector (`labels.Selector`; nil is `none` at use sites). -/
structure Selector where
  tag : String
deriving DecidableEq, Repr

/-- An opaque content response (`component.ContentResponse`). -/
structure ContentResponse where
  tag : String
deriving DecidableEq, Repr

/-- The result of a generator invocation: a content response and an optional
error, mirroring the Go pair return. -/
abbrev GenResult := ContentResponse × Option String

/-- Structure `GeneratorOptions` from overview.go. -/
structure GeneratorOptions where
  selector : Option Selector
  portForwardSvc : PortForwarder
  pluginManager : PluginManager
deriving DecidableEq, Repr

/-- Structure `module.ContentOptions`; `Content` reads only its `Selector` field. -/
structure ContentOptions where
  selector : Option Selector
deriving DecidableEq, Repr

/-- The `realGenerator`, reduced to its `Generate` method (whose body is
outside the excerpted sources and stays abstract). -/
structure RealGenerator where
  generate : String → String → String → GeneratorOptions → GenResult

/-- The cluster client (`cluster.ClientInterface`), reduced to the two
fallible accessors `NewClusterOverview` calls on it. -/
structure Client where
  discoveryClient : Except String Unit
  restClient : Except String Unit

/-- Structure `Options` from overview.go; `Client` and `PluginManager` are the two
fields checked for nil. -/
structure Options where
  client : Option Client
  cache : Cache
  ns : String
  logger : Logger
  pluginManager : Option PluginManager

/-- Structure `ClusterOverview` from overview.go. -/
structure ClusterOverview where
  client : Client
  logger : Logger
  cache : Cache
  generator : RealGenerator
  portForwardSvc : PortForwarder
  pluginManager : PluginManager

/-- Inputs of `NewClusterOverview` that come from collaborators outside the
excerpted sources: the static path filters of `rootDescriber` and
`eventsDescriber`, the service handle `portforward.New` returns, and the
result of `newGenerator`. -/
structure CtorEnv where
  rootPathFilters : List PathFilter
  eventsPathFilters : List PathFilter
  pfSvc : PortForwarder
  newGen : Except String RealGenerator

/-- An observable side effect of `NewClusterOverview`, in program order:
registering one static path filter, starting the CRD watcher goroutine
(`go watchCRDs(...)`), or creating the port-forward service
(`portforward.New`). -/
inductive CtorAction where
  | registerStatic : PathFilter → CtorAction
  | startCRDWatcher : CtorAction
  | createPortForwardSvc : CtorAction
deriving DecidableEq, Repr

/-- Function `NewClusterOverview` from overview.go: nil checks, discovery client,
static path-filter registration, CRD watcher start, REST client,
port-forward service creation, generator creation. Returns the trace of
observable side effects in program order together with the Go return
value (`Except` models the `(*ClusterOverview, error)` pair). -/
def NewClusterOverview (env : CtorEnv) (opts : Options) :
    List CtorAction × Except String ClusterOverview :=
  match opts.client with
  | none => ([], Except.error "nil cluster client")
  | some client =>
    match opts.pluginManager with
    | none => ([], Except.error "plugin manager is nil")
    | some pman =>
      match client.discoveryClient with
      | Except.error e => ([], Except.error ("creating DiscoveryClient: " ++ e))
      | Except.ok _ =>
        let staticRegs :=
          (env.rootPathFilters ++ env.eventsPathFilters).map CtorAction.registerStatic
        let trace1 := staticRegs ++ [CtorAction.startCRDWatcher]
        match client.restClient with
        | Except.error e => (trace1, Except.error ("fetching RESTClient: " ++ e))
        | Except.ok _ =>
          let trace2 := trace1 ++ [CtorAction.createPortForwardSvc]
          match env.newGen with
          | Except.error e => (trace2, Except.error ("create overview generator: " ++ e))
          | Except.ok g =>
            (trace2, Except.ok
              { client := client, logger := opts.logger, cache := opts.cache,
                generator := g, portForwardSvc := env.pfSvc, pluginManager := pman })

/-- One invocation of `generator.Generate`, with the arguments it received. -/
structure GenerateCall where
  contentPath : String
  pfx : String
  ns : String
  opts : GeneratorOptions
deriving DecidableEq, Repr

/-- Method `ClusterOverview.Content` from overview.go: builds `GeneratorOptions`
from the request's selector and the overview's port-forward service and
plugin manager, then returns `co.generator.Generate(ctx, contentPath,
prefix, namespace, genOpts)`. The second component records the generator
invocations performed (the single delegation). -/
def ClusterOverview.Content (co : ClusterOverview) (contentPath pfx ns : String)
    (opts : ContentOptions) : GenResult × List GenerateCall :=
  let genOpts : GeneratorOptions :=
    { selector := opts.selector, portForwardSvc := co.portForwardSvc,
      pluginManager := co.pluginManager }
  (co.generator.generate contentPath pfx ns genOpts,
    [{ contentPath := contentPath, pfx := pfx, ns := ns, opts := genOpts }])

/-! ## Claims about the Kind Watcher / Path Registry -/

/-- Claim C1: for every finite sequence of Added and Deleted Kind Watcher events
all about a single kind name, after the sequence is processed the Path
Registry contains a registration for that name iff the last event of the
sequence in delivery order was Added; moreover the name is never duplicated
(at most one entry for it at the end). -/
theorem kindWatcher_final_state_iff_last_added (reg : List String) (nm : String)
    (evts : List CRDEvent) (hne : evts ≠ [])
    (hall : ∀ e ∈ evts, CRDEvent.name e = nm) (hc : reg.count nm ≤ 1) :
    (nm ∈ processEvents reg evts ↔ (evts.getLast hne).isAdded = true) ∧
      (processEvents reg evts).count nm ≤ 1 := by
  induction evts using List.reverseRecOn with
  | nil => exact absurd rfl hne
  | append_singleton evts e _ =>
    have hmem : ∀ f ∈ evts, CRDEvent.name f = nm := by
      intro f hf; exact hall f (List.mem_append_left _ hf)
    have he : CRDEvent.name e = nm := hall e (by simp)
    have hcount : (processEvents reg evts).count nm ≤ 1 :=
      processEvents_count reg evts nm hmem hc
    rw [processEvents_append, List.getLast_append]
    exact processEvent_mem (processEvents reg evts) e hcount he

/-- A sample single-name event sequence: widgets added, deleted, re-added,
then a re-delivered duplicate Added event. -/
def widgetEvents : List CRDEvent :=
  [CRDEvent.added ⟨"widgets"⟩, CRDEvent.deleted ⟨"widgets"⟩,
   CRDEvent.added ⟨"widgets"⟩, CRDEvent.added ⟨"widgets"⟩]

theorem kindWatcher_final_state_iff_last_added_witness :
    ("widgets" ∈ processEvents [] widgetEvents ↔
        (widgetEvents.getLast (by decide)).isAdded = true) ∧
      (processEvents [] widgetEvents).count "widgets" ≤ 1 :=
  kindWatcher_final_state_iff_last_added [] "widgets" widgetEvents (by decide)
    (by decide) (by decide)

/-- Claim C2: for every non-nil watched object, the Added handler performs exactly
one registry mutation, `add-for-name` with the object's name, and the
Deleted handler performs exactly one, `remove-for-name` with the object's
name; no other mutation is performed. -/
theorem handlers_mutate_registry_exactly_once (o : Unstructured) :
    crdAddFunc (some o) = [RegistryOp.addForName o.name] ∧
      crdDeleteFunc (some o) = [RegistryOp.removeForName o.name] :=
  ⟨rfl, rfl⟩

/-- Claim C9: a nil watched object is a safe no-op for both handlers: neither the
Added handler nor the Deleted handler performs any registry mutation on a
nil object. -/
theorem handlers_nil_object_noop :
    crdAddFunc none = [] ∧ crdDeleteFunc none = [] :=
  ⟨rfl, rfl⟩

/-! ## Claims about the constructor and Content -/

/-- Claim C3: in `NewClusterOverview`, every static path-filter registration (the
root and events describers' path filters) happens before the CRD watcher
that performs dynamic registrations is started, and no further static
registration happens afterwards; hence every static registration precedes
every dynamic one in the registry's insertion order. -/
theorem static_registrations_precede_watcher (env : CtorEnv) (opts : Options)
    (client : Client) (pman : PluginManager)
    (hcl : opts.client = some client) (hpm : opts.pluginManager = some pman)
    (hdi : client.discoveryClient = Except.ok ()) :
    ∃ tail, (NewClusterOverview env opts).1 =
        (env.rootPathFilters ++ env.eventsPathFilters).map CtorAction.registerStatic
          ++ CtorAction.startCRDWatcher :: tail ∧
      ∀ a ∈ tail, ∀ pf, a ≠ CtorAction.registerStatic pf := by
  unfold NewClusterOverview
  rw [hcl, hpm]
  simp only [hdi]
  cases hrc : client.restClient with
  | error e => exact ⟨[], by simp, by simp⟩
  | ok _ =>
    cases hg : env.newGen with
    | error e =>
      refine ⟨[CtorAction.createPortForwardSvc], by simp, ?_⟩
      intro a ha pf
      simp at ha
      simp [ha]
    | ok g =>
      refine ⟨[CtorAction.createPortForwardSvc], by simp, ?_⟩
      intro a ha pf
      simp at ha
      simp [ha]

/-- A concrete client whose accessors succeed. -/
def okClient : Client :=
  { discoveryClient := Except.ok (), restClient := Except.ok () }

/-- A concrete constructor environment. -/
def sampleEnv : CtorEnv :=
  { rootPathFilters := [⟨"/overview"⟩], eventsPathFilters := [⟨"/events"⟩],
    pfSvc := ⟨"pf"⟩,
    newGen := Except.ok ⟨fun _ _ _ _ => (⟨"resp"⟩, none)⟩ }

/-- Concrete options with non-nil client and plugin manager. -/
def sampleOptions : Options :=
  { client := some okClient, cache := ⟨"cache"⟩, ns := "default",
    logger := ⟨"log"⟩, pluginManager := some ⟨"plugins"⟩ }

theorem static_registrations_precede_watcher_witness :
    ∃ tail, (NewClusterOverview sampleEnv sampleOptions).1 =
        (sampleEnv.rootPathFilters ++ sampleEnv.eventsPathFilters).map
            CtorAction.registerStatic
          ++ CtorAction.startCRDWatcher :: tail ∧
      ∀ a ∈ tail, ∀ pf, a ≠ CtorAction.registerStatic pf :=
  static_registrations_precede_watcher sampleEnv sampleOptions okClient
    ⟨"plugins"⟩ rfl rfl rfl

/-- Claim C7: `Content` delegates to the generator exactly once, passing the
request's content path, prefix, namespace and selector through unchanged,
and returns exactly the generator's result. -/
theorem content_delegates_to_generator (co : ClusterOverview)
    (contentPath pfx ns : String) (opts : ContentOptions) :
    (co.Content contentPath pfx ns opts).1 =
        co.generator.generate contentPath pfx ns
          { selector := opts.selector, portForwardSvc := co.portForwardSvc,
            pluginManager := co.pluginManager } ∧
      (co.Content contentPath pfx ns opts).2 =
        [{ contentPath := contentPath, pfx := pfx, ns := ns,
           opts := { selector := opts.selector, portForwardSvc := co.portForwardSvc,
                     pluginManager := co.pluginManager } }] :=
  ⟨rfl, rfl⟩

/-- Claim C8: when the options carry a nil client or a nil plugin manager,
`NewClusterOverview` returns an error, and neither the CRD watcher start
nor the port-forward service creation appears in its side-effect trace. -/
theorem nil_options_error_before_resources (env : CtorEnv) (opts : Options)
    (h : opts.client = none ∨ opts.pluginManager = none) :
    (∃ e, (NewClusterOverview env opts).2 = Except.error e) ∧
      CtorAction.startCRDWatcher ∉ (NewClusterOverview env opts).1 ∧
      CtorAction.createPortForwardSvc ∉ (NewClusterOverview env opts).1 := by
  cases hcl : opts.client with
  | none => exact ⟨⟨"nil cluster client", by simp [NewClusterOverview, hcl]⟩,
      by simp [NewClusterOverview, hcl], by simp [NewClusterOverview, hcl]⟩
  | some client =>
    have hpm : opts.pluginManager = none := by
      cases h with
      | inl hc => rw [hcl] at hc; cases hc
      | inr hp => exact hp
    exact ⟨⟨"plugin manager is nil", by simp [NewClusterOverview, hcl, hpm]⟩,
      by simp [NewClusterOverview, hcl, hpm], by simp [NewClusterOverview, hcl, hpm]⟩

/-- Concrete options with a nil plugin manager. -/
def nilPluginOptions : Options :=
  { client := some okClient, cache := ⟨"cache"⟩, ns := "default",
    logger := ⟨"log"⟩, pluginManager := none }

theorem nil_options_error_before_resources_witness :
    (∃ e, (NewClusterOverview sampleEnv nilPluginOptions).2 = Except.error e) ∧
      CtorAction.startCRDWatcher ∉ (NewClusterOverview sampleEnv nilPluginOptions).1 ∧
      CtorAction.createPortForwardSvc ∉ (NewClusterOverview sampleEnv nilPluginOptions).1 :=
  nil_options_error_before_resources sampleEnv nilPluginOptions (Or.inr rfl)

/-! ## Session Manager (port-forward) and its HTTP boundary

The port-forward service implementation (`portforward.New`, `createPortforward`,
`deletePortForward`, `handlePortforwardError`) is outside the excerpted
sources; it is modelled from the spec. The two HTTP handlers that form the
boundary (`portForwardsHandler`, `portForwardHandler`) are in overview.go
and are translated directly. -/

/-- A session target: namespace, pod, container, local and remote port. -/
structure Target where
  ns : String
  pod : String
  container : String
  localPort : Nat
  remotePort : Nat
deriving DecidableEq, Repr

/-- Session states per the spec: Requested → Running → Stopped or Failed. -/
inductive SessionStatus where
  | requested | running | failed | stopped
deriving DecidableEq, Repr

/-- One tunnel session tracked by the Session Manager. -/
structure Session where
  id : String
  target : Target
  status : SessionStatus
deriving DecidableEq, Repr

/-- The Session Manager's state: the session table and an id counter. -/
structure PFState where
  sessions : List Session
  nextId : Nat
deriving DecidableEq, Repr

/-- Errors of the Session Manager taxonomy that reach the HTTP boundary. -/
inductive PFError where
  | notFound
  | invalidTarget
deriving DecidableEq, Repr

/-- Modelled from the spec: target validation. Missing from the sources:
`createPortforward`'s request validation. Spec §4.4: create "fails with
InvalidTarget if the target descriptor is malformed (missing
pod/container/port) before any resource is allocated". -/
def Target.isValid (t : Target) : Bool :=
  t.pod ≠ "" && t.container ≠ "" && t.remotePort ≠ 0

/-- Modelled from the spec: `create(target)`. Missing from the sources: the
port-forward service's Create operation. Spec §4.4: allocates a fresh
unique identity, registers a Requested-state entry, returns the Requested
snapshot; a malformed target fails with InvalidTarget before any
session-table entry is made. -/
def PFState.createSession (st : PFState) (t : Target) :
    Except PFError Session × PFState :=
  if t.isValid then
    let s : Session := { id := toString st.nextId, target := t,
                         status := SessionStatus.requested }
    (Except.ok s, { sessions := st.sessions ++ [s], nextId := st.nextId + 1 })
  else
    (Except.error PFError.invalidTarget, st)

/-- Modelled from the spec: `delete(id)`. Missing from the sources: the
port-forward service's StopForwarder/Delete operation. Spec §4.4: removes
the table entry and succeeds when the id exists; "fails with NotFound if
the id is absent (no resource is touched)". -/
def PFState.deleteSession (st : PFState) (id : String) :
    Except PFError Unit × PFState :=
  if st.sessions.any (fun s => s.id = id) then
    (Except.ok (), { st with sessions := st.sessions.filter (fun s => s.id ≠ id) })
  else
    (Except.error PFError.notFound, st)

/-- The three Session Manager verbs the spec's HTTP boundary names. -/
inductive SessionVerb where
  | create | read | delete
deriving DecidableEq, Repr

/-- A response written by an overview HTTP handler: a structured success
payload, a structured error payload (`api.RespondWithError`), or the plain
`http.Error` text used when the service handle is nil. -/
inductive HandlerResponse where
  | ok : String → HandlerResponse
  | apiError : Nat → String → HandlerResponse
  | plainError : Nat → String → HandlerResponse
deriving DecidableEq, Repr

/-- Whether a response is one of the two structured payload shapes. -/
def HandlerResponse.isStructured : HandlerResponse → Bool
  | HandlerResponse.ok _ => true
  | HandlerResponse.apiError _ _ => true
  | HandlerResponse.plainError _ _ => false

/-- Modelled from the spec: `handlePortforwardError` mapping a Session
Manager error to a structured error payload. Missing from the sources:
`handlePortforwardError`. Spec §6: each verb returns "a structured success
payload or a structured error payload". -/
def portforwardErrorResponse : PFError → HandlerResponse
  | PFError.notFound => HandlerResponse.apiError 404 "not found"
  | PFError.invalidTarget => HandlerResponse.apiError 400 "invalid target"

/-- The outcome of one request against a handler: the response written, the
service state afterwards, and the Session Manager verbs invoked while
handling it. -/
structure HandlerResult where
  response : HandlerResponse
  state : Option PFState
  invoked : List SessionVerb
deriving DecidableEq, Repr

/-- Function `portForwardsHandler` from overview.go (route `/port-forwards`): if the
service is nil, a plain 500 error; on POST, `createPortforward` (modelled
as `PFState.createSession` on the request's target); on any other method,
`api.RespondWithError` with "unhandled HTTP method". -/
def portForwardsHandler (svc : Option PFState) (method : String) (body : Target) :
    HandlerResult :=
  match svc with
  | none =>
    { response := HandlerResponse.plainError 500 "portforward service is nil",
      state := none, invoked := [] }
  | some st =>
    if method = "POST" then
      match st.createSession body with
      | (Except.ok s, st2) =>
        { response := HandlerResponse.ok ("created " ++ s.id), state := some st2,
          invoked := [SessionVerb.create] }
      | (Except.error e, st2) =>
        { response := portforwardErrorResponse e, state := some st2,
          invoked := [SessionVerb.create] }
    else
      { response := HandlerResponse.apiError 404 ("unhandled HTTP method " ++ method),
        state := some st, invoked := [] }

/-- Function `portForwardHandler` from overview.go (route `/port-forwards/\x7bid\x7d`):
if the service is nil, a plain 500 error; on DELETE, `deletePortForward`
(modelled as `PFState.deleteSession` on the path id); on any other method,
`api.RespondWithError` with "unhandled HTTP method". -/
def portForwardHandler (svc : Option PFState) (method : String) (id : String) :
    HandlerResult :=
  match svc with
  | none =>
    { response := HandlerResponse.plainError 500 "portforward service is nil",
      state := none, invoked := [] }
  | some st =>
    if method = "DELETE" then
      match st.deleteSession id with
      | (Except.ok _, st2) =>
        { response := HandlerResponse.ok "deleted", state := some st2,
          invoked := [SessionVerb.delete] }
      | (Except.error e, st2) =>
        { response := portforwardErrorResponse e, state := some st2,
          invoked := [SessionVerb.delete] }
    else
      { response := HandlerResponse.apiError 404 ("unhandled HTTP method " ++ method),
        state := some st, invoked := [] }

/-! ## Handler lemmas -/

lemma portForwardsHandler_invoked (st : PFState) (method : String) (body : Target) :
    (portForwardsHandler (some st) method body).invoked =
      if method = "POST" then [SessionVerb.create] else [] := by
  unfold portForwardsHandler
  by_cases hm : method = "POST"
  · rcases hc : st.createSession body with ⟨r, st2⟩
    cases r <;> simp [hm, hc]
  · simp [hm]

lemma portForwardHandler_invoked (st : PFState) (method : String) (id : String) :
    (portForwardHandler (some st) method id).invoked =
      if method = "DELETE" then [SessionVerb.delete] else [] := by
  unfold portForwardHandler
  by_cases hm : method = "DELETE"
  · rcases hc : st.deleteSession id with ⟨r, st2⟩
    cases r <;> simp [hm, hc]
  · simp [hm]

lemma portForwardsHandler_structured (st : PFState) (method : String) (body : Target) :
    (portForwardsHandler (some st) method body).response.isStructured = true := by
  unfold portForwardsHandler
  by_cases hm : method = "POST"
  · rcases hc : st.createSession body with ⟨r, st2⟩
    cases r with
    | ok s => simp [hm, hc, HandlerResponse.isStructured]
    | error e =>
      cases e <;>
        simp [hm, hc, portforwardErrorResponse, HandlerResponse.isStructured]
  · simp [hm, HandlerResponse.isStructured]

lemma portForwardHandler_structured (st : PFState) (method : String) (id : String) :
    (portForwardHandler (some st) method id).response.isStructured = true := by
  unfold portForwardHandler
  by_cases hm : method = "DELETE"
  · rcases hc : st.deleteSession id with ⟨r, st2⟩
    cases r with
    | ok s => simp [hm, hc, HandlerResponse.isStructured]
    | error e =>
      cases e <;>
        simp [hm, hc, portforwardErrorResponse, HandlerResponse.isStructured]
  · simp [hm, HandlerResponse.isStructured]

/-! ## Claims about the Session Manager boundary -/

/-- A concrete session target. -/
def sampleTarget : Target :=
  { ns := "default", pod := "p1", container := "c1", localPort := 8080,
    remotePort := 8080 }

/-- A concrete service state holding one running session with id "0". -/
def samplePFState : PFState :=
  { sessions := [{ id := "0", target := sampleTarget,
                   status := SessionStatus.running }],
    nextId := 1 }

/-- Claim C4 counterexample: reading a session's status by id — a GET on the
per-session route for an existing session — is answered with the
"unhandled HTTP method" error payload and invokes no Session Manager
operation, so the read verb is not supported at this HTTP boundary. -/
theorem session_read_verb_unsupported :
    (portForwardHandler (some samplePFState) "GET" "0").response =
        HandlerResponse.apiError 404 "unhandled HTTP method GET" ∧
      (portForwardHandler (some samplePFState) "GET" "0").invoked = [] :=
  ⟨rfl, rfl⟩

/-- Claim C4 amended: the Session Manager's HTTP boundary supports exactly
two verbs — create, via POST on the collection route, and delete, via
DELETE on the per-session route; read by id is not exposed — and with a
non-nil service every response is a structured success payload or a
structured error payload. -/
theorem session_boundary_supports_create_and_delete (st : PFState)
    (method id : String) (body : Target) :
    ((portForwardsHandler (some st) method body).invoked =
        if method = "POST" then [SessionVerb.create] else []) ∧
      ((portForwardHandler (some st) method id).invoked =
        if method = "DELETE" then [SessionVerb.delete] else []) ∧
      SessionVerb.read ∉ (portForwardsHandler (some st) method body).invoked ∧
      SessionVerb.read ∉ (portForwardHandler (some st) method id).invoked ∧
      (portForwardsHandler (some st) method body).response.isStructured = true ∧
      (portForwardHandler (some st) method id).response.isStructured = true := by
  refine ⟨portForwardsHandler_invoked st method body,
    portForwardHandler_invoked st method id, ?_, ?_,
    portForwardsHandler_structured st method body,
    portForwardHandler_structured st method id⟩
  · rw [portForwardsHandler_invoked st method body]
    by_cases hm : method = "POST" <;> simp [hm]
  · rw [portForwardHandler_invoked st method id]
    by_cases hm : method = "DELETE" <;> simp [hm]

/-- Claim C5: deleting a session id that was never created or has already
been removed returns NotFound and leaves the whole service state — every
other session's table entry and resources — unchanged. -/
theorem delete_unknown_id_notFound (st : PFState) (id : String)
    (h : ∀ s ∈ st.sessions, s.id ≠ id) :
    (st.deleteSession id).1 = Except.error PFError.notFound ∧
      (st.deleteSession id).2 = st := by
  have hany : (st.sessions.any fun s => s.id = id) = false := by
    rw [List.any_eq_false]
    intro s hs
    simpa using h s hs
  unfold PFState.deleteSession
  rw [hany]
  simp

theorem delete_unknown_id_notFound_witness :
    ((samplePFState.deleteSession "missing").1 = Except.error PFError.notFound ∧
      (samplePFState.deleteSession "missing").2 = samplePFState) :=
  delete_unknown_id_notFound samplePFState "missing" (by decide)

/-- Claim C6: creating a session from a malformed target — missing pod,
container, or port — fails synchronously with InvalidTarget and leaves the
service state unchanged: no session-table entry or other resource is
allocated. -/
theorem create_invalid_target_rejected (st : PFState) (t : Target)
    (h : t.pod = "" ∨ t.container = "" ∨ t.remotePort = 0) :
    (st.createSession t).1 = Except.error PFError.invalidTarget ∧
      (st.createSession t).2 = st := by
  have hv : t.isValid = false := by
    unfold Target.isValid
    rcases h with h | h | h <;> simp [h]
  unfold PFState.createSession
  rw [hv]
  simp

/-- A target with no pod name. -/
def podlessTarget : Target :=
  { ns := "default", pod := "", container := "c1", localPort := 8080,
    remotePort := 8080 }

theorem create_invalid_target_rejected_witness :
    ((samplePFState.createSession podlessTarget).1 =
        Except.error PFError.invalidTarget ∧
      (samplePFState.createSession podlessTarget).2 = samplePFState) :=
  create_invalid_target_rejected samplePFState podlessTarget (Or.inl rfl)

/-! ## Kubeconfig loader (internal/event/context.go, kubeconfig package) -/

/-- The raw client config (`clientcmdapi.Config`) reduced to the fields
`Load` reads: the context names (keys of the Contexts map) and the current
context. -/
structure RawConfig where
  contextNames : List String
  currentContext : String
deriving DecidableEq, Repr

/-- A `clientcmd.ClientConfig` value reduced to its fallible `RawConfig`
method. -/
structure ClientConfig where
  rawConfig : Except String RawConfig

/-- Structure `Context` from the kubeconfig package. -/
structure Context where
  name : String
deriving DecidableEq, Repr

/-- Structure `KubeConfig` from the kubeconfig package. -/
structure KubeConfig where
  contexts : List Context
  currentContext : String
deriving DecidableEq, Repr

/-- The observable outcome of running a Go function: a normal return of a
value, a normal return of an error, or a runtime panic (such as calling a
method on a nil interface value). -/
inductive GoOutcome (α : Type) where
  | ok : α → GoOutcome α
  | err : String → GoOutcome α
  | nilPanic : GoOutcome α
deriving DecidableEq, Repr

/-- Insert a context into a list sorted by name. -/
def insertByName (c : Context) : List Context → List Context
  | [] => [c]
  | d :: ds => if c.name < d.name then c :: d :: ds else d :: insertByName c ds

/-- Sort contexts by name (the `sort.Slice` call in `Load`). -/
def sortByName (l : List Context) : List Context :=
  l.foldr insertByName []

/-- Method `FSLoader.Load` from the kubeconfig package: calls
`clientcmd.NewClientConfigFromBytes([]byte(content))` (passed in as a
parameter, since it is a third-party library function returning a possibly
nil interface and a possibly non-nil error), then on the next line shadows
that call's error with the one from `cc.RawConfig()`. When construction
failed, the returned interface is nil and the `RawConfig` method call
panics; the construction error is never examined. On success the method
collects the config's context names, sorts them, and returns a
`KubeConfig`. -/
def FSLoader.Load
    (newClientConfigFromBytes : String → Option ClientConfig × Option String)
    (content : String) : GoOutcome KubeConfig :=
  match newClientConfigFromBytes content with
  | (none, _) => GoOutcome.nilPanic
  | (some cc, _) =>
    match cc.rawConfig with
    | Except.error e => GoOutcome.err e
    | Except.ok config =>
      GoOutcome.ok
        { contexts := sortByName (config.contextNames.map Context.mk),
          currentContext := config.currentContext }

/-- A stand-in for `clientcmd.NewClientConfigFromBytes` on malformed input:
construction fails, returning a nil client config together with an error,
as the library does for unparseable bytes. -/
def failingClientConfigFromBytes : String → Option ClientConfig × Option String :=
  fun _ => (none, some "couldn't get version/kind: yaml: found character that cannot start any token")

/-- Claim C10 (code bug): on content whose client-config construction fails,
`FSLoader.Load` does not propagate the construction error — that error is
shadowed by the next line's assignment — and instead calls `RawConfig` on
the nil client config, which panics; so on such input `Load` neither
returns a parsed config nor returns an error. -/
theorem load_ignores_construction_error :
    FSLoader.Load failingClientConfigFromBytes "\tnot: yaml" = GoOutcome.nilPanic ∧
      ∀ e, FSLoader.Load failingClientConfigFromBytes "\tnot: yaml" ≠ GoOutcome.err e := by
  refine ⟨rfl, ?_⟩
  intro e h
  simp [FSLoader.Load, failingClientConfigFromBytes] at h

end Octant
